import Mathlib

/-
Verification of the sky-brightness core of stellarium-web-engine
(`src/skybrightness.c`).

The C code is a pure floating-point computation; we embed it shallowly
over the real numbers: every C float expression is translated to the
corresponding real expression, `expf`/`exp10`/`logf`/`powf`/`cosf`/`sinf`
become `Real.exp`, `Real.log`, `Real.rpow`, `Real.cos`, `Real.sin`, and
the custom repeated-squaring surrogate `fast_expf` is translated exactly
as the 1024th power it computes.  The session structure
`skybrightness_t` and the two operations `skybrightness_prepare` and
`skybrightness_get_luminance` mirror the source line by line.
-/

namespace Skybright

noncomputable section

/-- Radian to degree constant of the source: `DR = 180.0f / 3.14159f`. -/
def DR : ℝ := 180 / 3.14159

/-- Degree to radian constant of the source: `RD = 3.14159f / 180.0f`. -/
def RD : ℝ := 3.14159 / 180

/-- Nanolambert to cd/m2 (`NLAMBERT_TO_CDM2 = 3.183e-6f`). -/
def NLAMBERT_TO_CDM2 : ℝ := 3.183e-6

/-- Source constant `WA = 0.55f`. -/
def WA : ℝ := 0.55

/-- Source constant `MO = -11.05f`. -/
def MO : ℝ := -11.05

/-- Source constant `OZ = 0.031f`. -/
def OZ : ℝ := 0.031

/-- Source constant `WT = 0.031f`. -/
def WT : ℝ := 0.031

/-- Source constant `BO = 1.0E-13f`. -/
def BO : ℝ := 1.0e-13

/-- Source constant `CM = 0.00f`. -/
def CM : ℝ := 0

/-- Source constant `MS = -26.74f`. -/
def MS : ℝ := -26.74

/-- `pow2(x) = x * x` of the source. -/
def pow2 (x : ℝ) : ℝ := x * x

/-- `pow4(x) = x * x * x * x` of the source. -/
def pow4 (x : ℝ) : ℝ := x * x * x * x

/-- The fast exponential surrogate of the source: `x = 1 + x/1024`
followed by ten successive squarings, i.e. `(1 + x/1024)^1024`. -/
def fast_expf (x : ℝ) : ℝ := (1 + x / 1024) ^ (1024 : ℕ)

/-- The source macro `exp10(x) = exp(x * log(10))`; `exp10f` is the same
function in float precision, so both macros share this real model. -/
def exp10 (x : ℝ) : ℝ := Real.exp (x * Real.log 10)

/-- `fast_exp10f(x) = fast_expf(x * logf(10.f))`. -/
def fast_exp10f (x : ℝ) : ℝ := fast_expf (x * Real.log 10)

/-- The session state written by `skybrightness_prepare` and read by
`skybrightness_get_luminance` (struct `skybrightness_t`). -/
structure skybrightness_t where
  Y : ℝ
  M : ℝ
  AM : ℝ
  LA : ℝ
  AL : ℝ
  TE : ℝ
  RH : ℝ
  ZM : ℝ
  ZS : ℝ
  k_BT : ℝ
  k_BM : ℝ
  k_BN : ℝ
  K : ℝ
  XM : ℝ
  XS : ℝ

/-- `RA = (M - 3) * 30.0f * RD` (source line 80). -/
def seasonRA (M : ℝ) : ℝ := (M - 3) * 30 * RD

/-- `SL = LA > 0 ? 1 : -1` (source line 81). -/
def hemiSL (LA : ℝ) : ℝ := if LA > 0 then 1 else -1

/-- Rayleigh extinction component (source line 84). -/
def KR_term (AL : ℝ) : ℝ :=
  0.1066 * Real.exp (-1 * AL / 8200) * (WA / 0.55) ^ (-4 : ℝ)

/-- Aerosol extinction component (source lines 85-87, the two
assignments to `KA` combined). -/
def KA_term (M LA AL RH : ℝ) : ℝ :=
  0.1 * (WA / 0.55) ^ (-1.3 : ℝ) * Real.exp (-1 * AL / 1500) *
    (1 - 0.32 / Real.log (RH / 100)) ^ (1.33 : ℝ) *
    (1 + 0.33 * hemiSL LA * Real.sin (seasonRA M))

/-- Ozone extinction component (source line 88), with `LT = LA * RD`
inlined. -/
def KO_term (M LA : ℝ) : ℝ :=
  OZ * (3 + 0.4 * (LA * RD * Real.cos (seasonRA M) - Real.cos (3 * (LA * RD)))) / 3

/-- Water-vapor extinction component (source line 89). -/
def KW_term (AL RH TE : ℝ) : ℝ :=
  WT * 0.94 * (RH / 100) * Real.exp (TE / 15) * Real.exp (-1 * AL / 8200)

/-- Composite extinction coefficient `K = KR + KA + KO + KW`
(source line 90), as a function of month, latitude in degrees,
altitude, relative humidity and temperature. -/
def K_coef (M LA AL RH TE : ℝ) : ℝ :=
  KR_term AL + KA_term M LA AL RH + KO_term M LA + KW_term AL RH TE

/-- The airmass formula used for the Moon and the Sun in
`skybrightness_prepare` (source lines 94 and 99):
`1 / (cos(z*RD) + .025 * exp(-11 * cos(z*RD)))`, `z` in degrees. -/
def airmass (z : ℝ) : ℝ :=
  1 / (Real.cos (z * RD) + 0.025 * Real.exp (-11 * Real.cos (z * RD)))

/-- `skybrightness_prepare` (source lines 47-102).  Angles come in as
radians and are stored in degrees via `DR`; the composite extinction
coefficient and the two airmasses (with the `> 90` sentinel tests of
lines 95 and 100) are precomputed. -/
def skybrightness_prepare (year month : ℤ)
    (moon_phase latitude altitude temperature relative_humidity
      dist_moon_zenith dist_sun_zenith twilight_coef
      moon_brightness_coef darknight_brightness_coef : ℝ) : skybrightness_t :=
  { Y := (year : ℝ)
    M := (month : ℝ)
    AM := moon_phase * DR
    LA := latitude * DR
    AL := altitude
    TE := temperature
    RH := relative_humidity
    ZM := dist_moon_zenith * DR
    ZS := dist_sun_zenith * DR
    k_BT := twilight_coef
    k_BM := moon_brightness_coef
    k_BN := darknight_brightness_coef
    K := K_coef (month : ℝ) (latitude * DR) altitude relative_humidity temperature
    XM := if dist_moon_zenith * DR > 90 then 40 else airmass (dist_moon_zenith * DR)
    XS := if dist_sun_zenith * DR > 90 then 40 else airmass (dist_sun_zenith * DR) }

/-- Airmass along the queried direction (source line 130), using the
fast exponential surrogate; `ZZ = zenith_dist * DR * RD`. -/
def X_air (zenith_dist : ℝ) : ℝ :=
  1 / (Real.cos (zenith_dist * DR * RD) +
        0.025 * fast_expf (-11 * Real.cos (zenith_dist * DR * RD)))

/-- Dark-night sky brightness `BN` (source lines 135-138); the source
writes `powf(sinf(ZZ), 2)`, i.e. the square of the sine. -/
def BN_term (sb : skybrightness_t) (zenith_dist : ℝ) : ℝ :=
  BO * (1 + 0.3 * Real.cos (6.283 * (sb.Y - 1992) / 11)) *
    (0.4 + 0.6 / Real.sqrt (1 - 0.96 * Real.sin (zenith_dist * DR * RD) ^ 2)) *
    fast_exp10f (-0.4 * sb.K * X_air zenith_dist) *
    sb.k_BN

/-- Moonlight brightness `BM` (source lines 141-151), with
`RM = max(moon_dist * DR, 1)`, moon magnitude `MM`, the extinction
factor `C3` and the scattering function `FM` inlined as in the source. -/
def BM_term (sb : skybrightness_t) (moon_dist zenith_dist : ℝ) : ℝ :=
  exp10 (-0.4 * ((-12.73 + 0.026 * |sb.AM| + 4e-9 * pow4 sb.AM + CM) - MO + 43.27)) *
    (1 - exp10 (-0.4 * sb.K * X_air zenith_dist)) *
    ((6.2e7 / pow2 (max (moon_dist * DR) 1) +
        exp10 (6.15 - max (moon_dist * DR) 1 / 40) +
        exp10 5.36 * (1.06 + pow2 (Real.cos (max (moon_dist * DR) 1 * RD)))) *
        fast_exp10f (-0.4 * sb.K * sb.XM) +
      440000 * (1 - fast_exp10f (-0.4 * sb.K * sb.XM))) *
    sb.k_BM

/-- Twilight brightness `BT` (source lines 154-157), with
`HS = 90 - ZS`, `RS = max(sun_dist * DR, 1)` and `Z = zenith_dist * DR`. -/
def BT_term (sb : skybrightness_t) (sun_dist zenith_dist : ℝ) : ℝ :=
  exp10 (-0.4 * (MS - MO + 32.5 - (90 - sb.ZS) - zenith_dist * DR / (360 * sb.K))) *
    (100 / max (sun_dist * DR) 1) *
    (1 - exp10 (-0.4 * sb.K * X_air zenith_dist)) *
    sb.k_BT

/-- Daylight brightness `BD` (source lines 160-165), with the extinction
factor `C4` and the scattering function `FS` inlined as in the source. -/
def BD_term (sb : skybrightness_t) (sun_dist zenith_dist : ℝ) : ℝ :=
  exp10 (-0.4 * (MS - MO + 43.27)) *
    (1 - exp10 (-0.4 * sb.K * X_air zenith_dist)) *
    ((6.2e7 / pow2 (max (sun_dist * DR) 1) +
        fast_exp10f (6.15 - max (sun_dist * DR) 1 / 40) +
        fast_exp10f 5.36 * (1.06 + pow2 (Real.cos (max (sun_dist * DR) 1 * RD)))) *
        fast_exp10f (-0.4 * sb.K * sb.XS) +
      440000 * (1 - fast_exp10f (-0.4 * sb.K * sb.XS)))

/-- The twilight/daylight selection of source lines 168-171:
`if (BD > BT) B = BN + BT; else B = BN + BD;`. -/
def B_sun (sb : skybrightness_t) (sun_dist zenith_dist : ℝ) : ℝ :=
  if BD_term sb sun_dist zenith_dist > BT_term sb sun_dist zenith_dist then
    BN_term sb zenith_dist + BT_term sb sun_dist zenith_dist
  else
    BN_term sb zenith_dist + BD_term sb sun_dist zenith_dist

/-- Total sky brightness `B` before unit conversion (source lines
167-176): the twilight/daylight selection, then
`if (ZM < 80) B = B + BM;` and
`if (ZM > 80 && ZM <= 90) B = B + BM * (90 - ZM) / 10;`. -/
def B_total (sb : skybrightness_t) (moon_dist sun_dist zenith_dist : ℝ) : ℝ :=
  (if sb.ZM < 80 then
      B_sun sb sun_dist zenith_dist + BM_term sb moon_dist zenith_dist
    else B_sun sb sun_dist zenith_dist) +
  (if 80 < sb.ZM ∧ sb.ZM ≤ 90 then
      BM_term sb moon_dist zenith_dist * (90 - sb.ZM) / 10
    else 0)

/-- `skybrightness_get_luminance` (source lines 105-184): the total
brightness converted to nanolamberts (`/ 1.11E-15`) and then to cd/m2. -/
def skybrightness_get_luminance (sb : skybrightness_t)
    (moon_dist sun_dist zenith_dist : ℝ) : ℝ :=
  B_total sb moon_dist sun_dist zenith_dist / 1.11e-15 * NLAMBERT_TO_CDM2

/-- The effective weight with which the moonlight term enters the total,
as a function of the stored Moon zenith distance: the two moon branches
of source lines 172 and 176 contribute `1`, `(90 - zm) / 10`, or
nothing. -/
def moonWeight (zm : ℝ) : ℝ :=
  if zm < 80 then 1 else if 80 < zm ∧ zm ≤ 90 then (90 - zm) / 10 else 0

/-- Domain side conditions under which every logarithm, division and
fractional power that `skybrightness_prepare` evaluates into its stored
fields is well defined: the humidity logarithm (source line 86) has a
positive argument and is nonzero (it is a divisor), the aerosol
fractional power has a nonnegative base, and the airmass denominators
(source lines 94 and 99) are nonzero whenever the formula value (and
not the sentinel 40) is the one stored. -/
def prepareDefined (relative_humidity dist_moon_zenith dist_sun_zenith : ℝ) : Prop :=
  0 < relative_humidity / 100 ∧
  Real.log (relative_humidity / 100) ≠ 0 ∧
  0 ≤ 1 - 0.32 / Real.log (relative_humidity / 100) ∧
  (¬ dist_moon_zenith * DR > 90 →
    Real.cos (dist_moon_zenith * DR * RD) +
      0.025 * Real.exp (-11 * Real.cos (dist_moon_zenith * DR * RD)) ≠ 0) ∧
  (¬ dist_sun_zenith * DR > 90 →
    Real.cos (dist_sun_zenith * DR * RD) +
      0.025 * Real.exp (-11 * Real.cos (dist_sun_zenith * DR * RD)) ≠ 0)

/-- A concrete prepared session: March 2000 at the equator at sea
level, humidity 50%, Moon 2 rad past the zenith (below the horizon),
Sun at the zenith, twilight scale 0, moon and dark-night scales 1. -/
def sb1 : skybrightness_t :=
  skybrightness_prepare 2000 3 0 0 0 0 50 2 0 0 1 1

/-- A concrete prepared session whose stored Moon zenith distance is
exactly 80 degrees (input `80 / DR` radians); otherwise like `sb1` with
moon scale 1. -/
def sb2 : skybrightness_t :=
  skybrightness_prepare 2000 3 0 0 0 0 50 (80 / DR) 0 0 1 1

/-- A concrete prepared session whose stored Moon zenith distance is
exactly 90 degrees (input `90 / DR` radians). -/
def sb3 : skybrightness_t :=
  skybrightness_prepare 2000 3 0 0 0 0 50 (90 / DR) 2 0 1 1

/-- A session record with unit derived fields and scales, used to
instantiate hypotheses about arbitrary sessions. -/
def sbW : skybrightness_t :=
  ⟨2000, 3, 0, 0, 0, 0, 50, 100, 100, 1, 1, 1, 1, 1, 1⟩

/-- A session record whose Moon zenith distance is exactly 80 degrees,
with unit derived fields and scales. -/
def sbC10 : skybrightness_t :=
  ⟨2000, 3, 0, 0, 0, 0, 50, 80, 100, 1, 1, 1, 1, 1, 1⟩

/-! ### Basic facts about the numeric helpers -/

lemma DR_pos : 0 < DR := by norm_num [DR]

lemma DR_ne_zero : DR ≠ 0 := ne_of_gt DR_pos

lemma RD_pos : 0 < RD := by norm_num [RD]

lemma DR_mul_RD : DR * RD = 1 := by norm_num [DR, RD]

lemma log_ten_pos : 0 < Real.log 10 := Real.log_pos (by norm_num)

lemma fast_expf_nonneg (x : ℝ) : 0 ≤ fast_expf x := by
  unfold fast_expf
  rw [show (1024 : ℕ) = 2 * 512 from rfl, pow_mul]
  exact pow_nonneg (sq_nonneg _) 512

lemma fast_expf_pos {x : ℝ} (h : 0 < 1 + x / 1024) : 0 < fast_expf x :=
  pow_pos h 1024

lemma fast_exp10f_nonneg (x : ℝ) : 0 ≤ fast_exp10f x :=
  fast_expf_nonneg _

lemma exp10_pos (x : ℝ) : 0 < exp10 x := Real.exp_pos _

lemma exp10_lt_one {x : ℝ} (h : x < 0) : exp10 x < 1 := by
  have : Real.exp (x * Real.log 10) < Real.exp 0 :=
    Real.exp_lt_exp.mpr (mul_neg_of_neg_of_pos h log_ten_pos)
  simpa [exp10, Real.exp_zero] using this

lemma exp10_le_one {x : ℝ} (h : x ≤ 0) : exp10 x ≤ 1 := by
  have : Real.exp (x * Real.log 10) ≤ Real.exp 0 :=
    Real.exp_le_exp.mpr (mul_nonpos_of_nonpos_of_nonneg h log_ten_pos.le)
  simpa [exp10, Real.exp_zero] using this

/-- The airmass denominator `c + .025 * exp(-11 c)` is at least
`.025 + .725 c`, by `1 + t ≤ exp t`. -/
lemma airden_lb (c : ℝ) : 0.025 + 0.725 * c ≤ c + 0.025 * Real.exp (-11 * c) := by
  have h := Real.add_one_le_exp (-11 * c)
  nlinarith

lemma airmass_pos_of_cos_pos {z : ℝ} (h : 0 < Real.cos (z * RD)) :
    0 < airmass z := by
  unfold airmass
  have hd : 0 < Real.cos (z * RD) + 0.025 * Real.exp (-11 * Real.cos (z * RD)) := by
    have := Real.exp_pos (-11 * Real.cos (z * RD))
    nlinarith
  positivity

lemma X_air_pos {zd : ℝ} (h : 0 ≤ Real.cos (zd * DR * RD)) : 0 < X_air zd := by
  unfold X_air
  set c := Real.cos (zd * DR * RD) with hc
  have hc1 : c ≤ 1 := Real.cos_le_one _
  have hbase : 0 < 1 + -11 * c / 1024 := by nlinarith
  have hfast : 0 < fast_expf (-11 * c) := fast_expf_pos hbase
  have hd : 0 < c + 0.025 * fast_expf (-11 * c) := by nlinarith
  positivity

lemma X_air_zero_pos : 0 < X_air 0 := by
  apply X_air_pos
  norm_num

lemma moonWeight_nonneg (zm : ℝ) : 0 ≤ moonWeight zm := by
  unfold moonWeight
  by_cases h1 : zm < 80
  · simp [h1]
  · by_cases h2 : 80 < zm ∧ zm ≤ 90
    · simp [h1, h2]
      linarith [h2.2]
    · simp [h1, h2]

lemma moonWeight_of_gt90 {zm : ℝ} (h : 90 < zm) : moonWeight zm = 0 := by
  unfold moonWeight
  rw [if_neg (by linarith), if_neg (by rintro ⟨_, h2⟩; linarith)]

lemma moonWeight_80 : moonWeight 80 = 0 := by
  unfold moonWeight
  norm_num

/-! ### Structure of the total brightness -/

lemma B_sun_eq_min (sb : skybrightness_t) (sd zd : ℝ) :
    B_sun sb sd zd =
      BN_term sb zd + min (BT_term sb sd zd) (BD_term sb sd zd) := by
  unfold B_sun
  by_cases h : BD_term sb sd zd > BT_term sb sd zd
  · rw [if_pos h, min_eq_left h.le]
  · rw [if_neg h, min_eq_right (not_lt.mp h)]

/-- The total brightness decomposes as dark-night plus the smaller of
the twilight and daylight terms plus the moon term scaled by
`moonWeight`. -/
lemma B_total_decomp (sb : skybrightness_t) (md sd zd : ℝ) :
    B_total sb md sd zd =
      BN_term sb zd + min (BT_term sb sd zd) (BD_term sb sd zd) +
        moonWeight sb.ZM * BM_term sb md zd := by
  unfold B_total
  rw [B_sun_eq_min]
  rcases lt_trichotomy sb.ZM 80 with h | h | h
  · have h2 : ¬ (80 < sb.ZM ∧ sb.ZM ≤ 90) := by rintro ⟨h3, _⟩; linarith
    have hw : moonWeight sb.ZM = 1 := by unfold moonWeight; rw [if_pos h]
    rw [if_pos h, if_neg h2, hw]
    ring
  · have h1 : ¬ sb.ZM < 80 := not_lt.mpr (le_of_eq h.symm)
    have h2 : ¬ (80 < sb.ZM ∧ sb.ZM ≤ 90) := by
      rintro ⟨h3, _⟩; rw [h] at h3; exact lt_irrefl 80 h3
    have hw : moonWeight sb.ZM = 0 := by unfold moonWeight; rw [if_neg h1, if_neg h2]
    rw [if_neg h1, if_neg h2, hw]
    ring
  · have h1 : ¬ sb.ZM < 80 := not_lt.mpr (by linarith)
    by_cases h2 : sb.ZM ≤ 90
    · have hw : moonWeight sb.ZM = (90 - sb.ZM) / 10 := by
        unfold moonWeight; rw [if_neg h1, if_pos ⟨h, h2⟩]
      rw [if_neg h1, if_pos ⟨h, h2⟩, hw]
      ring
    · have h3 : ¬ (80 < sb.ZM ∧ sb.ZM ≤ 90) := by rintro ⟨_, h4⟩; exact h2 h4
      have hw : moonWeight sb.ZM = 0 := by unfold moonWeight; rw [if_neg h1, if_neg h3]
      rw [if_neg h1, if_neg h3, hw]
      ring

/-! ### Positivity of the extinction components -/

lemma WA_div_one : (WA / 0.55 : ℝ) = 1 := by norm_num [WA]

lemma KR_term_pos (AL : ℝ) : 0 < KR_term AL := by
  unfold KR_term
  rw [WA_div_one, Real.one_rpow]
  positivity

lemma season_factor_pos (M LA : ℝ) :
    0 < 1 + 0.33 * hemiSL LA * Real.sin (seasonRA M) := by
  have hs1 := Real.neg_one_le_sin (seasonRA M)
  have hs2 := Real.sin_le_one (seasonRA M)
  unfold hemiSL
  by_cases h : LA > 0
  · rw [if_pos h]; nlinarith
  · rw [if_neg h]; nlinarith

lemma log_RH_neg {RH : ℝ} (h0 : 0 < RH) (h1 : RH < 100) :
    Real.log (RH / 100) < 0 :=
  Real.log_neg (by positivity) ((div_lt_one (by norm_num)).mpr h1)

lemma humid_base_gt_one {RH : ℝ} (h0 : 0 < RH) (h1 : RH < 100) :
    1 < 1 - 0.32 / Real.log (RH / 100) := by
  have h := log_RH_neg h0 h1
  have : 0.32 / Real.log (RH / 100) < 0 := div_neg_of_pos_of_neg (by norm_num) h
  linarith

lemma KA_term_pos {RH : ℝ} (M LA AL : ℝ) (h0 : 0 < RH) (h1 : RH < 100) :
    0 < KA_term M LA AL RH := by
  unfold KA_term
  rw [WA_div_one, Real.one_rpow]
  have hb : (0 : ℝ) < 1 - 0.32 / Real.log (RH / 100) :=
    lt_trans one_pos (humid_base_gt_one h0 h1)
  have h2 : 0 < (1 - 0.32 / Real.log (RH / 100)) ^ (1.33 : ℝ) :=
    Real.rpow_pos_of_pos hb _
  have h3 := season_factor_pos M LA
  have h4 : (0 : ℝ) < 0.1 * 1 := by norm_num
  exact mul_pos (mul_pos (mul_pos h4 (Real.exp_pos _)) h2) h3

lemma KO_term_pos {LA : ℝ} (M : ℝ) (hLA : |LA * RD| ≤ Real.pi / 2) :
    0 < KO_term M LA := by
  unfold KO_term OZ
  have hpi := Real.pi_lt_d6
  have hc1 : |Real.cos (seasonRA M)| ≤ 1 := Real.abs_cos_le_one _
  have hc3 : Real.cos (3 * (LA * RD)) ≤ 1 := Real.cos_le_one _
  have habs : |LA * RD * Real.cos (seasonRA M)| ≤ Real.pi / 2 := by
    rw [abs_mul]
    calc |LA * RD| * |Real.cos (seasonRA M)| ≤ Real.pi / 2 * 1 :=
          mul_le_mul hLA hc1 (abs_nonneg _) (by positivity)
      _ = Real.pi / 2 := mul_one _
  have h1 : -(Real.pi / 2) ≤ LA * RD * Real.cos (seasonRA M) := (abs_le.mp habs).1
  linarith

lemma KW_term_pos {RH : ℝ} (AL TE : ℝ) (h0 : 0 < RH) : 0 < KW_term AL RH TE := by
  unfold KW_term WT
  have h1 := Real.exp_pos (TE / 15)
  have h2 := Real.exp_pos (-1 * AL / 8200)
  positivity

/-- Positivity of the composite extinction coefficient for humidity in
`(0, 100)` and latitude within a quarter turn of the equator. -/
lemma K_coef_pos {LA RH : ℝ} (M AL TE : ℝ) (h0 : 0 < RH) (h1 : RH < 100)
    (hLA : |LA * RD| ≤ Real.pi / 2) : 0 < K_coef M LA AL RH TE := by
  unfold K_coef
  have hr := KR_term_pos AL
  have ha := KA_term_pos M LA AL h0 h1
  have ho := KO_term_pos M hLA
  have hw := KW_term_pos AL TE h0
  linarith

/-! ### Positivity of the brightness terms -/

lemma combo_pos {F C : ℝ} (hC : 0 ≤ C) (hF : 440000 ≤ F) :
    0 < F * C + 440000 * (1 - C) := by nlinarith

lemma one_sub_exp10_pos {t : ℝ} (h : 0 < t) : 0 < 1 - exp10 (-t) := by
  have := exp10_lt_one (neg_neg_of_pos h)
  linarith

lemma pow2_nonneg (x : ℝ) : 0 ≤ pow2 x := mul_self_nonneg x

lemma pow2_one : pow2 (1 : ℝ) = 1 := by norm_num [pow2]

lemma BD_pos {sb : skybrightness_t} {sd zd : ℝ} (hK : 0 < sb.K)
    (hX : 0 < X_air zd) (hsd : sd * DR ≤ 1) : 0 < BD_term sb sd zd := by
  unfold BD_term
  rw [max_eq_right hsd]
  have h1 : 0 < exp10 (-0.4 * (MS - MO + 43.27)) := exp10_pos _
  have h2 : 0 < 1 - exp10 (-0.4 * sb.K * X_air zd) := by
    have he : (-0.4 : ℝ) * sb.K * X_air zd = -(0.4 * sb.K * X_air zd) := by ring
    rw [he]
    exact one_sub_exp10_pos (by positivity)
  have ha := fast_exp10f_nonneg (6.15 - 1 / 40)
  have hb := fast_exp10f_nonneg (5.36 : ℝ)
  have hc : (0 : ℝ) ≤ 1.06 + pow2 (Real.cos (1 * RD)) := by
    have := pow2_nonneg (Real.cos (1 * RD)); linarith
  have hF : (440000 : ℝ) ≤ 6.2e7 / pow2 1 + fast_exp10f (6.15 - 1 / 40) +
      fast_exp10f 5.36 * (1.06 + pow2 (Real.cos (1 * RD))) := by
    rw [pow2_one]
    nlinarith [mul_nonneg hb hc]
  have hC4 := fast_exp10f_nonneg (-0.4 * sb.K * sb.XS)
  exact mul_pos (mul_pos h1 h2) (combo_pos hC4 hF)

lemma BM_pos {sb : skybrightness_t} {md zd : ℝ} (hK : 0 < sb.K)
    (hX : 0 < X_air zd) (hmd : md * DR ≤ 1) (hk : 0 < sb.k_BM) :
    0 < BM_term sb md zd := by
  unfold BM_term
  rw [max_eq_right hmd]
  have h1 : 0 < exp10 (-0.4 * ((-12.73 + 0.026 * |sb.AM| + 4e-9 * pow4 sb.AM + CM)
      - MO + 43.27)) := exp10_pos _
  have h2 : 0 < 1 - exp10 (-0.4 * sb.K * X_air zd) := by
    have he : (-0.4 : ℝ) * sb.K * X_air zd = -(0.4 * sb.K * X_air zd) := by ring
    rw [he]
    exact one_sub_exp10_pos (by positivity)
  have ha := (exp10_pos (6.15 - 1 / 40)).le
  have hb := (exp10_pos (5.36 : ℝ)).le
  have hc : (0 : ℝ) ≤ 1.06 + pow2 (Real.cos (1 * RD)) := by
    have := pow2_nonneg (Real.cos (1 * RD)); linarith
  have hF : (440000 : ℝ) ≤ 6.2e7 / pow2 1 + exp10 (6.15 - 1 / 40) +
      exp10 5.36 * (1.06 + pow2 (Real.cos (1 * RD))) := by
    rw [pow2_one]
    nlinarith [mul_nonneg hb hc]
  have hC3 := fast_exp10f_nonneg (-0.4 * sb.K * sb.XM)
  exact mul_pos (mul_pos (mul_pos h1 h2) (combo_pos hC3 hF)) hk

lemma BT_term_eq_zero {sb : skybrightness_t} (sd zd : ℝ) (h : sb.k_BT = 0) :
    BT_term sb sd zd = 0 := by
  unfold BT_term
  rw [h, mul_zero]

/-! ### Facts about the concrete sessions -/

lemma sb1_K_pos : 0 < sb1.K := by
  show 0 < K_coef ((3 : ℤ) : ℝ) (0 * DR) 0 50 0
  apply K_coef_pos
  · norm_num
  · norm_num
  · rw [zero_mul, zero_mul, abs_zero]
    positivity

lemma sb2_K_pos : 0 < sb2.K := sb1_K_pos

lemma sb1_ZM_gt_90 : (90 : ℝ) < sb1.ZM := by
  show (90 : ℝ) < 2 * DR
  norm_num [DR]

lemma sb2_ZM : sb2.ZM = 80 := by
  show (80 : ℝ) / DR * DR = 80
  exact div_mul_cancel₀ 80 DR_ne_zero

lemma BD_sb1_pos : 0 < BD_term sb1 0 0 :=
  BD_pos sb1_K_pos X_air_zero_pos (by norm_num [DR])

/-! ### Claim C1 -/

/-- Claim C1 (counterexample): at a concrete prepared session with zero
twilight scale and the Moon below the horizon, the total brightness
before unit conversion is not the dark-night term plus the larger of
the twilight and daylight terms (plus the conditional moon term): the
code keeps the smaller of the two, and here the daylight term is
strictly the larger. -/
theorem C1_combination_counterexample :
    B_total sb1 0 0 0 ≠
      BN_term sb1 0 + max (BT_term sb1 0 0) (BD_term sb1 0 0) +
        moonWeight sb1.ZM * BM_term sb1 0 0 := by
  have hw : moonWeight sb1.ZM = 0 := moonWeight_of_gt90 sb1_ZM_gt_90
  have hBT : BT_term sb1 0 0 = 0 := BT_term_eq_zero 0 0 rfl
  have hBD := BD_sb1_pos
  rw [B_total_decomp, hw, hBT]
  simp only [zero_mul, add_zero]
  rw [min_eq_left hBD.le, max_eq_right hBD.le]
  exact ne_of_lt (by linarith)

/-- Claim C1 (amended): for every session and query, the total
brightness before unit conversion equals the dark-night term plus the
SMALLER of the twilight and daylight terms, plus the moon term scaled
by its zenith-distance weight: the branch `if (BD > BT)` keeps `BT`. -/
theorem C1_total_is_dark_plus_min (sb : skybrightness_t) (md sd zd : ℝ) :
    B_total sb md sd zd =
      BN_term sb zd + min (BT_term sb sd zd) (BD_term sb sd zd) +
        moonWeight sb.ZM * BM_term sb md zd :=
  B_total_decomp sb md sd zd

/-! ### Claim C2 -/

/-- Claim C2 (counterexample): at a concrete prepared session whose
stored Moon zenith distance is exactly 80 degrees, the moonlight term
is strictly positive yet the total brightness does not include the
blend weight `(90 - ZM) / 10` (which is 1 there): the code adds no
moon contribution at all at exactly 80 degrees, so the brightness jumps
at that boundary endpoint. -/
theorem C2_blend_counterexample :
    sb2.ZM = 80 ∧
    B_total sb2 0 0 0 ≠
      BN_term sb2 0 + min (BT_term sb2 0 0) (BD_term sb2 0 0) +
        (90 - sb2.ZM) / 10 * BM_term sb2 0 0 := by
  refine ⟨sb2_ZM, ?_⟩
  have hBM : 0 < BM_term sb2 0 0 := by
    apply BM_pos sb2_K_pos X_air_zero_pos (by norm_num [DR])
    show (0 : ℝ) < 1
    norm_num
  rw [B_total_decomp, sb2_ZM, moonWeight_80, zero_mul, add_zero]
  rw [show ((90 : ℝ) - 80) / 10 = 1 by norm_num, one_mul]
  exact ne_of_lt (by linarith)

/-- Claim C2 (amended): the luminance decomposes with the moon weight
equal to 1 strictly below 80 degrees, `(90 - ZM) / 10` strictly between
80 and 90 degrees, and 0 at exactly 80 degrees and above 90 degrees;
the blend is continuous at the 90-degree endpoint but drops to zero at
exactly 80 degrees. -/
theorem C2_moon_blend (sb : skybrightness_t) (md sd zd : ℝ) :
    skybrightness_get_luminance sb md sd zd =
      (BN_term sb zd + min (BT_term sb sd zd) (BD_term sb sd zd) +
        moonWeight sb.ZM * BM_term sb md zd) / 1.11e-15 * NLAMBERT_TO_CDM2 := by
  unfold skybrightness_get_luminance
  rw [B_total_decomp]

/-! ### Claim C3 -/

/-- Claim C3 (counterexample): at a session prepared with a Moon zenith
distance of exactly 90 degrees, the stored Moon airmass is the value of
the airmass formula (which is strictly below 40), not the sentinel 40:
the clamp of the source applies only strictly above 90 degrees. -/
theorem C3_clamp_counterexample : sb3.XM ≠ 40 := by
  have h90 : (90 : ℝ) / DR * DR = 90 := div_mul_cancel₀ 90 DR_ne_zero
  have hXM : sb3.XM = airmass 90 := by
    show (if (90 : ℝ) / DR * DR > 90 then (40 : ℝ)
          else airmass ((90 : ℝ) / DR * DR)) = airmass 90
    rw [h90, if_neg (lt_irrefl (90 : ℝ))]
  rw [hXM]
  unfold airmass
  rw [show (90 : ℝ) * RD = 3.14159 / 2 by norm_num [RD]]
  have hpi : (3.14159 : ℝ) < Real.pi := by
    have := Real.pi_gt_d6
    norm_num at this ⊢
    linarith
  have hcpos : 0 < Real.cos (3.14159 / 2) := by
    apply Real.cos_pos_of_mem_Ioo
    constructor
    · nlinarith [Real.pi_pos]
    · nlinarith
  have hlb := airden_lb (Real.cos (3.14159 / 2))
  have hd : (1 : ℝ) / 40 <
      Real.cos (3.14159 / 2) +
        0.025 * Real.exp (-11 * Real.cos (3.14159 / 2)) := by
    nlinarith
  have hlt := one_div_lt_one_div_of_lt (by norm_num : (0 : ℝ) < 1 / 40) hd
  rw [one_div_one_div] at hlt
  exact ne_of_lt hlt

/-- Claim C3 (amended): the stored Moon airmass (and likewise the Sun
airmass) equals the sentinel 40 whenever the corresponding zenith
distance converted to degrees is STRICTLY greater than 90; at exactly
90 degrees the airmass formula value is stored instead. -/
theorem C3_clamp_strict (year month : ℤ)
    (mp lat alt te rh dmz dsz tw cmn cdn : ℝ) :
    (90 < dmz * DR →
      (skybrightness_prepare year month mp lat alt te rh dmz dsz tw cmn cdn).XM = 40) ∧
    (90 < dsz * DR →
      (skybrightness_prepare year month mp lat alt te rh dmz dsz tw cmn cdn).XS = 40) := by
  constructor
  · intro h
    show (if dmz * DR > 90 then (40 : ℝ) else airmass (dmz * DR)) = 40
    rw [if_pos h]
  · intro h
    show (if dsz * DR > 90 then (40 : ℝ) else airmass (dsz * DR)) = 40
    rw [if_pos h]

/-- Witness for the amended claim C3 at a concrete input whose Moon and
Sun zenith distances are both 2 rad, i.e. about 114.6 degrees. -/
theorem C3_clamp_strict_witness :
    (skybrightness_prepare 2000 3 0 0 0 0 50 2 2 0 1 1).XM = 40 ∧
    (skybrightness_prepare 2000 3 0 0 0 0 50 2 2 0 1 1).XS = 40 :=
  ⟨(C3_clamp_strict 2000 3 0 0 0 0 50 2 2 0 1 1).1 (by norm_num [DR]),
   (C3_clamp_strict 2000 3 0 0 0 0 50 2 2 0 1 1).2 (by norm_num [DR])⟩

/-! ### Claim C4 -/

/-- Claim C4 (counterexample): at relative humidity exactly 100 the
logarithm term `logf(RH / 100)` equals `log 1 = 0`, so the aerosol
component divides by zero: the claimed safe interval `(0, 100]` fails
at its right endpoint. -/
theorem C4_domain_counterexample : ¬ prepareDefined 100 0 0 := by
  rintro ⟨-, h2, -⟩
  apply h2
  rw [show (100 : ℝ) / 100 = 1 by norm_num, Real.log_one]

/-- Claim C4 (amended): for relative humidity strictly between 0
and 100 and nonnegative zenith-distance inputs, every logarithm,
division and fractional power evaluated into the fields stored by
`skybrightness_prepare` is well defined; humidity 0 or below makes the
logarithm undefined, and humidity exactly 100 makes its value a zero
divisor. -/
theorem C4_prepare_defined (rh dmz dsz : ℝ) (h0 : 0 < rh) (h1 : rh < 100)
    (hm : 0 ≤ dmz) (hs : 0 ≤ dsz) : prepareDefined rh dmz dsz := by
  have hlog := log_RH_neg h0 h1
  have hdiv : 0.32 / Real.log (rh / 100) < 0 :=
    div_neg_of_pos_of_neg (by norm_num) hlog
  have hpi := Real.pi_gt_d6
  have key : ∀ d : ℝ, 0 ≤ d → ¬ d * DR > 90 →
      Real.cos (d * DR * RD) + 0.025 * Real.exp (-11 * Real.cos (d * DR * RD)) ≠ 0 := by
    intro d hd h
    have h2 : d * DR ≤ 90 := not_lt.mp h
    have h3 : d * DR * RD = d := by rw [mul_assoc, DR_mul_RD, mul_one]
    rw [h3]
    have hub : d ≤ 3.14159 / 2 := by
      have h4 := mul_le_mul_of_nonneg_right h2 RD_pos.le
      rw [h3] at h4
      calc d ≤ 90 * RD := h4
        _ = 3.14159 / 2 := by norm_num [RD]
    have hcpos : 0 < Real.cos d := by
      apply Real.cos_pos_of_mem_Ioo
      constructor
      · have := Real.pi_pos
        nlinarith
      · nlinarith
    have hexp := Real.exp_pos (-11 * Real.cos d)
    have : 0 < Real.cos d + 0.025 * Real.exp (-11 * Real.cos d) := by nlinarith
    exact ne_of_gt this
  exact ⟨by positivity, ne_of_lt hlog, by linarith, key dmz hm, key dsz hs⟩

/-- Witness for the amended claim C4 at humidity 50 with both bodies at
the zenith. -/
theorem C4_prepare_defined_witness : prepareDefined 50 0 0 :=
  C4_prepare_defined 50 0 0 (by norm_num) (by norm_num) le_rfl le_rfl

/-! ### Claim C5 -/

/-- Claim C5: the angular distances to the Moon and to the Sun are
clamped to a minimum of 1 degree inside `skybrightness_get_luminance`:
whenever the degree value of `moon_dist` (respectively `sun_dist`) is
below 1, the result is unchanged if that argument is replaced by the
radian value of 1 degree (`1 / DR`). -/
theorem C5_min_distance_clamp (sb : skybrightness_t) (md sd zd : ℝ) :
    (md * DR < 1 →
      skybrightness_get_luminance sb md sd zd =
        skybrightness_get_luminance sb (1 / DR) sd zd) ∧
    (sd * DR < 1 →
      skybrightness_get_luminance sb md sd zd =
        skybrightness_get_luminance sb md (1 / DR) zd) := by
  have hclamp : (1 : ℝ) / DR * DR = 1 := div_mul_cancel₀ 1 DR_ne_zero
  constructor
  · intro h
    have h1 : max (md * DR) 1 = 1 := max_eq_right h.le
    have h2 : max ((1 : ℝ) / DR * DR) 1 = 1 := by rw [hclamp, max_self]
    unfold skybrightness_get_luminance B_total B_sun BM_term
    rw [h1, h2]
  · intro h
    have h1 : max (sd * DR) 1 = 1 := max_eq_right h.le
    have h2 : max ((1 : ℝ) / DR * DR) 1 = 1 := by rw [hclamp, max_self]
    unfold skybrightness_get_luminance B_total B_sun BT_term BD_term
    rw [h1, h2]

/-- Witness for claim C5: at a concrete session, evaluating at the
Moon's (respectively the Sun's) disk center gives the same luminance as
evaluating 1 degree away. -/
theorem C5_min_distance_clamp_witness :
    skybrightness_get_luminance sbW 0 0 0 =
      skybrightness_get_luminance sbW (1 / DR) 0 0 ∧
    skybrightness_get_luminance sbW 0 0 0 =
      skybrightness_get_luminance sbW 0 (1 / DR) 0 :=
  ⟨(C5_min_distance_clamp sbW 0 0 0).1 (by norm_num [DR]),
   (C5_min_distance_clamp sbW 0 0 0).2 (by norm_num [DR])⟩

/-! ### Claim C6 -/

lemma fast_expf_le_one {x : ℝ} (h0 : x ≤ 0) (h2 : -2048 ≤ x) :
    fast_expf x ≤ 1 := by
  unfold fast_expf
  have hb2 : (1 + x / 1024) ^ 2 ≤ 1 := by nlinarith
  calc (1 + x / 1024) ^ (1024 : ℕ) = ((1 + x / 1024) ^ 2) ^ (512 : ℕ) := by
        rw [← pow_mul]
    _ ≤ 1 := pow_le_one₀ (sq_nonneg _) hb2

lemma fast_exp10f_le_one {u : ℝ} (h0 : 0 ≤ u) (h1 : u * Real.log 10 ≤ 2048) :
    fast_exp10f (-u) ≤ 1 := by
  unfold fast_exp10f
  apply fast_expf_le_one
  · have := log_ten_pos
    nlinarith
  · nlinarith

lemma one_sub_exp10_nonneg {t : ℝ} (h : 0 ≤ t) : 0 ≤ 1 - exp10 (-t) := by
  have := exp10_le_one (neg_nonpos_of_nonneg h)
  linarith

lemma BN_nonneg {sb : skybrightness_t} (zd : ℝ) (hk : 0 ≤ sb.k_BN) :
    0 ≤ BN_term sb zd := by
  unfold BN_term
  have h1 : (0 : ℝ) ≤ 1 + 0.3 * Real.cos (6.283 * (sb.Y - 1992) / 11) := by
    nlinarith [Real.neg_one_le_cos (6.283 * (sb.Y - 1992) / 11)]
  have h2 : (0 : ℝ) ≤ 0.4 + 0.6 / Real.sqrt (1 - 0.96 * Real.sin (zd * DR * RD) ^ 2) := by
    have hs := Real.sqrt_nonneg (1 - 0.96 * Real.sin (zd * DR * RD) ^ 2)
    have := div_nonneg (show (0 : ℝ) ≤ 0.6 by norm_num) hs
    linarith
  have h3 := fast_exp10f_nonneg (-0.4 * sb.K * X_air zd)
  have h4 : (0 : ℝ) ≤ BO := by norm_num [BO]
  exact mul_nonneg (mul_nonneg (mul_nonneg (mul_nonneg h4 h1) h2) h3) hk

lemma BT_nonneg {sb : skybrightness_t} {sd zd : ℝ} (hK : 0 ≤ sb.K)
    (hX : 0 ≤ X_air zd) (hk : 0 ≤ sb.k_BT) : 0 ≤ BT_term sb sd zd := by
  unfold BT_term
  have h1 := (exp10_pos (-0.4 * (MS - MO + 32.5 - (90 - sb.ZS) -
    zd * DR / (360 * sb.K)))).le
  have hmax : (0 : ℝ) < max (sd * DR) 1 := lt_of_lt_of_le one_pos (le_max_right _ _)
  have h2 : (0 : ℝ) ≤ 100 / max (sd * DR) 1 := by positivity
  have h3 : 0 ≤ 1 - exp10 (-0.4 * sb.K * X_air zd) := by
    rw [show (-0.4 : ℝ) * sb.K * X_air zd = -(0.4 * sb.K * X_air zd) by ring]
    exact one_sub_exp10_nonneg (by positivity)
  exact mul_nonneg (mul_nonneg (mul_nonneg h1 h2) h3) hk

lemma combo_nonneg {F C : ℝ} (h0 : 0 ≤ C) (h1 : C ≤ 1) (hF : 0 ≤ F) :
    0 ≤ F * C + 440000 * (1 - C) := by nlinarith

lemma BD_nonneg {sb : skybrightness_t} {sd zd : ℝ} (hK : 0 ≤ sb.K)
    (hX : 0 ≤ X_air zd) (hXS : 0 ≤ sb.XS)
    (hbound : 0.4 * sb.K * sb.XS * Real.log 10 ≤ 2048) :
    0 ≤ BD_term sb sd zd := by
  unfold BD_term
  have h1 := (exp10_pos (-0.4 * (MS - MO + 43.27))).le
  have h3 : 0 ≤ 1 - exp10 (-0.4 * sb.K * X_air zd) := by
    rw [show (-0.4 : ℝ) * sb.K * X_air zd = -(0.4 * sb.K * X_air zd) by ring]
    exact one_sub_exp10_nonneg (by positivity)
  have hC0 := fast_exp10f_nonneg (-0.4 * sb.K * sb.XS)
  have hC1 : fast_exp10f (-0.4 * sb.K * sb.XS) ≤ 1 := by
    rw [show (-0.4 : ℝ) * sb.K * sb.XS = -(0.4 * sb.K * sb.XS) by ring]
    exact fast_exp10f_le_one (by positivity) (by nlinarith)
  have hF : (0 : ℝ) ≤ 6.2e7 / pow2 (max (sd * DR) 1) +
      fast_exp10f (6.15 - max (sd * DR) 1 / 40) +
      fast_exp10f 5.36 * (1.06 + pow2 (Real.cos (max (sd * DR) 1 * RD))) := by
    have ha := fast_exp10f_nonneg (6.15 - max (sd * DR) 1 / 40)
    have hb := fast_exp10f_nonneg (5.36 : ℝ)
    have hc : (0 : ℝ) ≤ 1.06 + pow2 (Real.cos (max (sd * DR) 1 * RD)) := by
      have := pow2_nonneg (Real.cos (max (sd * DR) 1 * RD)); linarith
    have hd : (0 : ℝ) ≤ 6.2e7 / pow2 (max (sd * DR) 1) :=
      div_nonneg (by norm_num) (pow2_nonneg _)
    nlinarith [mul_nonneg hb hc]
  exact mul_nonneg (mul_nonneg h1 h3) (combo_nonneg hC0 hC1 hF)

lemma BM_nonneg {sb : skybrightness_t} {md zd : ℝ} (hK : 0 ≤ sb.K)
    (hX : 0 ≤ X_air zd) (hXM : 0 ≤ sb.XM) (hk : 0 ≤ sb.k_BM)
    (hbound : 0.4 * sb.K * sb.XM * Real.log 10 ≤ 2048) :
    0 ≤ BM_term sb md zd := by
  unfold BM_term
  have h1 := (exp10_pos (-0.4 * ((-12.73 + 0.026 * |sb.AM| + 4e-9 * pow4 sb.AM + CM)
    - MO + 43.27))).le
  have h3 : 0 ≤ 1 - exp10 (-0.4 * sb.K * X_air zd) := by
    rw [show (-0.4 : ℝ) * sb.K * X_air zd = -(0.4 * sb.K * X_air zd) by ring]
    exact one_sub_exp10_nonneg (by positivity)
  have hC0 := fast_exp10f_nonneg (-0.4 * sb.K * sb.XM)
  have hC1 : fast_exp10f (-0.4 * sb.K * sb.XM) ≤ 1 := by
    rw [show (-0.4 : ℝ) * sb.K * sb.XM = -(0.4 * sb.K * sb.XM) by ring]
    exact fast_exp10f_le_one (by positivity) (by nlinarith)
  have hF : (0 : ℝ) ≤ 6.2e7 / pow2 (max (md * DR) 1) +
      exp10 (6.15 - max (md * DR) 1 / 40) +
      exp10 5.36 * (1.06 + pow2 (Real.cos (max (md * DR) 1 * RD))) := by
    have ha := (exp10_pos (6.15 - max (md * DR) 1 / 40)).le
    have hb := (exp10_pos (5.36 : ℝ)).le
    have hc : (0 : ℝ) ≤ 1.06 + pow2 (Real.cos (max (md * DR) 1 * RD)) := by
      have := pow2_nonneg (Real.cos (max (md * DR) 1 * RD)); linarith
    have hd : (0 : ℝ) ≤ 6.2e7 / pow2 (max (md * DR) 1) :=
      div_nonneg (by norm_num) (pow2_nonneg _)
    nlinarith [mul_nonneg hb hc]
  exact mul_nonneg (mul_nonneg (mul_nonneg h1 h3) (combo_nonneg hC0 hC1 hF)) hk

/-- Claim C6: for a session within physically plausible ranges
(nonnegative composite extinction, nonnegative airmasses, nonnegative
scale coefficients, extinction optical depths small enough for the fast
exponential surrogate) and a query direction at or above the horizon,
the returned luminance is nonnegative (and, over the reals, finite);
the evaluator touches no state, so purity is immediate in this model. -/
theorem C6_luminance_nonneg (sb : skybrightness_t) (md sd zd : ℝ)
    (hK : 0 ≤ sb.K) (hXM : 0 ≤ sb.XM) (hXS : 0 ≤ sb.XS)
    (hkT : 0 ≤ sb.k_BT) (hkM : 0 ≤ sb.k_BM) (hkN : 0 ≤ sb.k_BN)
    (hz : 0 ≤ Real.cos (zd * DR * RD))
    (hbM : 0.4 * sb.K * sb.XM * Real.log 10 ≤ 2048)
    (hbS : 0.4 * sb.K * sb.XS * Real.log 10 ≤ 2048) :
    0 ≤ skybrightness_get_luminance sb md sd zd := by
  have hX := (X_air_pos hz).le
  have hBN := BN_nonneg zd hkN
  have hBT : 0 ≤ BT_term sb sd zd := BT_nonneg hK hX hkT
  have hBD : 0 ≤ BD_term sb sd zd := BD_nonneg hK hX hXS hbS
  have hBM : 0 ≤ BM_term sb md zd := BM_nonneg hK hX hXM hkM hbM
  have hw := moonWeight_nonneg sb.ZM
  unfold skybrightness_get_luminance
  rw [B_total_decomp]
  have hmin : 0 ≤ min (BT_term sb sd zd) (BD_term sb sd zd) := le_min hBT hBD
  have hB : 0 ≤ BN_term sb zd + min (BT_term sb sd zd) (BD_term sb sd zd) +
      moonWeight sb.ZM * BM_term sb md zd :=
    add_nonneg (add_nonneg hBN hmin) (mul_nonneg hw hBM)
  have hNL : (0 : ℝ) ≤ NLAMBERT_TO_CDM2 := by norm_num [NLAMBERT_TO_CDM2]
  exact mul_nonneg (div_nonneg hB (by norm_num)) hNL

/-- Witness for claim C6 at a concrete session record with unit derived
fields, querying the zenith. -/
theorem C6_luminance_nonneg_witness : 0 ≤ skybrightness_get_luminance sbW 0 0 0 := by
  have hlog : Real.log 10 ≤ 9 := by
    have := Real.log_le_sub_one_of_pos (show (0 : ℝ) < 10 by norm_num)
    linarith
  apply C6_luminance_nonneg sbW 0 0 0
  · show (0 : ℝ) ≤ 1; norm_num
  · show (0 : ℝ) ≤ 1; norm_num
  · show (0 : ℝ) ≤ 1; norm_num
  · show (0 : ℝ) ≤ 1; norm_num
  · show (0 : ℝ) ≤ 1; norm_num
  · show (0 : ℝ) ≤ 1; norm_num
  · rw [zero_mul, zero_mul, Real.cos_zero]; norm_num
  · show 0.4 * (1 : ℝ) * 1 * Real.log 10 ≤ 2048; nlinarith
  · show 0.4 * (1 : ℝ) * 1 * Real.log 10 ≤ 2048; nlinarith

/-! ### Claim C7 -/

lemma KR_term_lt {al1 al2 : ℝ} (h : al1 < al2) : KR_term al2 < KR_term al1 := by
  unfold KR_term
  rw [WA_div_one, Real.one_rpow, mul_one, mul_one]
  have he : Real.exp (-1 * al2 / 8200) < Real.exp (-1 * al1 / 8200) :=
    Real.exp_lt_exp.mpr (by linarith)
  nlinarith

lemma KA_term_lt {RH al1 al2 : ℝ} (M LA : ℝ) (h0 : 0 < RH) (h1 : RH < 100)
    (h : al1 < al2) : KA_term M LA al2 RH < KA_term M LA al1 RH := by
  unfold KA_term
  rw [WA_div_one, Real.one_rpow]
  have hb : (0 : ℝ) < (1 - 0.32 / Real.log (RH / 100)) ^ (1.33 : ℝ) :=
    Real.rpow_pos_of_pos (lt_trans one_pos (humid_base_gt_one h0 h1)) _
  have hs := season_factor_pos M LA
  have he : Real.exp (-1 * al2 / 1500) < Real.exp (-1 * al1 / 1500) :=
    Real.exp_lt_exp.mpr (by linarith)
  have hC : 0 < 0.1 * ((1 - 0.32 / Real.log (RH / 100)) ^ (1.33 : ℝ) *
      (1 + 0.33 * hemiSL LA * Real.sin (seasonRA M))) :=
    mul_pos (by norm_num) (mul_pos hb hs)
  calc 0.1 * 1 * Real.exp (-1 * al2 / 1500) *
        (1 - 0.32 / Real.log (RH / 100)) ^ (1.33 : ℝ) *
        (1 + 0.33 * hemiSL LA * Real.sin (seasonRA M))
      = Real.exp (-1 * al2 / 1500) *
        (0.1 * ((1 - 0.32 / Real.log (RH / 100)) ^ (1.33 : ℝ) *
          (1 + 0.33 * hemiSL LA * Real.sin (seasonRA M)))) := by ring
    _ < Real.exp (-1 * al1 / 1500) *
        (0.1 * ((1 - 0.32 / Real.log (RH / 100)) ^ (1.33 : ℝ) *
          (1 + 0.33 * hemiSL LA * Real.sin (seasonRA M)))) :=
        mul_lt_mul_of_pos_right he hC
    _ = 0.1 * 1 * Real.exp (-1 * al1 / 1500) *
        (1 - 0.32 / Real.log (RH / 100)) ^ (1.33 : ℝ) *
        (1 + 0.33 * hemiSL LA * Real.sin (seasonRA M)) := by ring

lemma KW_term_lt {RH al1 al2 : ℝ} (TE : ℝ) (h0 : 0 < RH) (h : al1 < al2) :
    KW_term al2 RH TE < KW_term al1 RH TE := by
  unfold KW_term WT
  have he : Real.exp (-1 * al2 / 8200) < Real.exp (-1 * al1 / 8200) :=
    Real.exp_lt_exp.mpr (by linarith)
  have hC : 0 < 0.031 * 0.94 * (RH / 100) * Real.exp (TE / 15) := by positivity
  exact mul_lt_mul_of_pos_left he hC

/-- Claim C7: two calls to `skybrightness_prepare` differing only in
altitude, with relative humidity in `(0, 100)`, store strictly ordered
composite extinction coefficients: the larger altitude gives the
strictly smaller `K`. -/
theorem C7_K_decreasing_in_altitude (year month : ℤ)
    (mp lat te rh dmz dsz tw cmn cdn al1 al2 : ℝ)
    (h0 : 0 < rh) (h1 : rh < 100) (h : al1 < al2) :
    (skybrightness_prepare year month mp lat al2 te rh dmz dsz tw cmn cdn).K <
      (skybrightness_prepare year month mp lat al1 te rh dmz dsz tw cmn cdn).K := by
  show K_coef ((month : ℤ) : ℝ) (lat * DR) al2 rh te <
    K_coef ((month : ℤ) : ℝ) (lat * DR) al1 rh te
  unfold K_coef
  have h2 := KR_term_lt h
  have h3 := KA_term_lt ((month : ℤ) : ℝ) (lat * DR) h0 h1 h
  have h5 := KW_term_lt te h0 h
  linarith

/-- Witness for claim C7: raising the site from sea level to 1000 m
strictly lowers the stored extinction coefficient. -/
theorem C7_K_decreasing_in_altitude_witness :
    (skybrightness_prepare 2000 3 0 0 1000 0 50 2 0 0 1 1).K <
      (skybrightness_prepare 2000 3 0 0 0 0 50 2 0 0 1 1).K :=
  C7_K_decreasing_in_altitude 2000 3 0 0 0 50 2 0 0 1 1 0 1000
    (by norm_num) (by norm_num) (by norm_num)

/-! ### Claim C8 -/

/-- Claim C8: the airmass formula used by `skybrightness_prepare` is
non-decreasing in the zenith distance on the interval from 0 to 90
degrees. -/
theorem C8_airmass_monotone (z1 z2 : ℝ) (h0 : 0 ≤ z1) (h12 : z1 ≤ z2)
    (h90 : z2 ≤ 90) : airmass z1 ≤ airmass z2 := by
  unfold airmass
  have hpi := Real.pi_gt_d6
  have hr0 : 0 ≤ z1 * RD := mul_nonneg h0 RD_pos.le
  have hr12 : z1 * RD ≤ z2 * RD := mul_le_mul_of_nonneg_right h12 RD_pos.le
  have hr90 : z2 * RD ≤ 3.14159 / 2 := by
    calc z2 * RD ≤ 90 * RD := mul_le_mul_of_nonneg_right h90 RD_pos.le
      _ = 3.14159 / 2 := by norm_num [RD]
  set c1 := Real.cos (z1 * RD) with hc1
  set c2 := Real.cos (z2 * RD) with hc2
  have hc21 : c2 ≤ c1 := by
    rw [hc1, hc2]
    apply Real.cos_le_cos_of_nonneg_of_le_pi hr0 ?_ hr12
    nlinarith
  have hc2pos : 0 < c2 := by
    rw [hc2]
    apply Real.cos_pos_of_mem_Ioo
    constructor
    · have := Real.pi_pos
      nlinarith
    · nlinarith
  have hdelta : 0 ≤ c1 - c2 := by linarith
  have hE2le1 : Real.exp (-11 * c2) ≤ 1 := by
    calc Real.exp (-11 * c2) ≤ Real.exp 0 := Real.exp_le_exp.mpr (by nlinarith)
      _ = 1 := Real.exp_zero
  have hsplit : Real.exp (-11 * c1) =
      Real.exp (-11 * c2) * Real.exp (-(11 * (c1 - c2))) := by
    rw [← Real.exp_add]
    ring_nf
  have hlow : Real.exp (-11 * c2) * (1 - 11 * (c1 - c2)) ≤ Real.exp (-11 * c1) := by
    rw [hsplit]
    have hB : (1 : ℝ) - 11 * (c1 - c2) ≤ Real.exp (-(11 * (c1 - c2))) := by
      nlinarith [Real.add_one_le_exp (-(11 * (c1 - c2)))]
    exact mul_le_mul_of_nonneg_left hB (Real.exp_pos (-11 * c2)).le
  have hd2pos : 0 < c2 + 0.025 * Real.exp (-11 * c2) := by
    have := Real.exp_pos (-11 * c2)
    nlinarith
  have hdle : c2 + 0.025 * Real.exp (-11 * c2) ≤ c1 + 0.025 * Real.exp (-11 * c1) := by
    nlinarith [hlow, mul_nonneg hdelta (by linarith : (0 : ℝ) ≤ 1 - Real.exp (-11 * c2))]
  exact one_div_le_one_div_of_le hd2pos hdle

/-- Witness for claim C8: the airmass at the zenith is at most the
airmass at the horizon. -/
theorem C8_airmass_monotone_witness : airmass 0 ≤ airmass 90 :=
  C8_airmass_monotone 0 90 le_rfl (by norm_num) le_rfl

/-! ### Claim C9 -/

lemma BN_k_scale {sbA sbB : skybrightness_t} (zd : ℝ) (hY : sbA.Y = sbB.Y)
    (hK : sbA.K = sbB.K) (hk : sbA.k_BN = 2 * sbB.k_BN) :
    BN_term sbA zd = 2 * BN_term sbB zd := by
  unfold BN_term
  rw [hY, hK, hk]
  ring

/-- Claim C9: doubling the dark-night scale coefficient passed to
`skybrightness_prepare` exactly doubles the dark-night term; the
returned luminance changes exactly by the dark-night contribution; and
in the regime where the twilight scale is zero, the Moon is below the
horizon and the daylight term is nonnegative, the returned luminance
exactly doubles. -/
theorem C9_darknight_linearity (year month : ℤ)
    (mp lat al te rh dmz dsz tw cmn dn md sd zd : ℝ) :
    BN_term (skybrightness_prepare year month mp lat al te rh dmz dsz tw cmn (2 * dn)) zd =
      2 * BN_term (skybrightness_prepare year month mp lat al te rh dmz dsz tw cmn dn) zd ∧
    skybrightness_get_luminance
        (skybrightness_prepare year month mp lat al te rh dmz dsz tw cmn (2 * dn)) md sd zd =
      skybrightness_get_luminance
          (skybrightness_prepare year month mp lat al te rh dmz dsz tw cmn dn) md sd zd +
        BN_term (skybrightness_prepare year month mp lat al te rh dmz dsz tw cmn dn) zd /
          1.11e-15 * NLAMBERT_TO_CDM2 ∧
    (tw = 0 → 90 < dmz * DR →
      0 ≤ BD_term (skybrightness_prepare year month mp lat al te rh dmz dsz tw cmn dn) sd zd →
      skybrightness_get_luminance
          (skybrightness_prepare year month mp lat al te rh dmz dsz tw cmn (2 * dn)) md sd zd =
        2 * skybrightness_get_luminance
          (skybrightness_prepare year month mp lat al te rh dmz dsz tw cmn dn) md sd zd) := by
  have hBN : BN_term
      (skybrightness_prepare year month mp lat al te rh dmz dsz tw cmn (2 * dn)) zd =
      2 * BN_term (skybrightness_prepare year month mp lat al te rh dmz dsz tw cmn dn) zd :=
    BN_k_scale zd rfl rfl rfl
  have hBM : BM_term
      (skybrightness_prepare year month mp lat al te rh dmz dsz tw cmn (2 * dn)) md zd =
      BM_term (skybrightness_prepare year month mp lat al te rh dmz dsz tw cmn dn) md zd := rfl
  have hBT : BT_term
      (skybrightness_prepare year month mp lat al te rh dmz dsz tw cmn (2 * dn)) sd zd =
      BT_term (skybrightness_prepare year month mp lat al te rh dmz dsz tw cmn dn) sd zd := rfl
  have hBD : BD_term
      (skybrightness_prepare year month mp lat al te rh dmz dsz tw cmn (2 * dn)) sd zd =
      BD_term (skybrightness_prepare year month mp lat al te rh dmz dsz tw cmn dn) sd zd := rfl
  have hZM : (skybrightness_prepare year month mp lat al te rh dmz dsz tw cmn (2 * dn)).ZM =
      (skybrightness_prepare year month mp lat al te rh dmz dsz tw cmn dn).ZM := rfl
  refine ⟨hBN, ?_, ?_⟩
  · unfold skybrightness_get_luminance
    rw [B_total_decomp, B_total_decomp, hBN, hBM, hBT, hBD, hZM]
    ring
  · intro htw hdmz hBD0
    have hBT1 : BT_term
        (skybrightness_prepare year month mp lat al te rh dmz dsz tw cmn dn) sd zd = 0 :=
      BT_term_eq_zero sd zd htw
    have hBT2 : BT_term
        (skybrightness_prepare year month mp lat al te rh dmz dsz tw cmn (2 * dn)) sd zd = 0 :=
      BT_term_eq_zero sd zd htw
    have hZMgt : (90 : ℝ) <
        (skybrightness_prepare year month mp lat al te rh dmz dsz tw cmn dn).ZM := hdmz
    have hZMgt2 : (90 : ℝ) <
        (skybrightness_prepare year month mp lat al te rh dmz dsz tw cmn (2 * dn)).ZM := hdmz
    unfold skybrightness_get_luminance
    rw [B_total_decomp, B_total_decomp, hBN, hBM, hBT1, hBT2, hBD,
      moonWeight_of_gt90 hZMgt, moonWeight_of_gt90 hZMgt2, min_eq_left hBD0]
    ring

/-- Witness for claim C9: at a concrete session with zero twilight
scale and the Moon below the horizon, doubling the dark-night scale
exactly doubles the luminance. -/
theorem C9_darknight_linearity_witness :
    skybrightness_get_luminance
        (skybrightness_prepare 2000 3 0 0 0 0 50 2 0 0 1 (2 * 1)) 0 0 0 =
      2 * skybrightness_get_luminance
        (skybrightness_prepare 2000 3 0 0 0 0 50 2 0 0 1 1) 0 0 0 :=
  (C9_darknight_linearity 2000 3 0 0 0 0 50 2 0 0 1 1 0 0 0).2.2 rfl
    (by norm_num [DR]) BD_sb1_pos.le

/-! ### Claim C10 -/

/-- Claim C10: when the stored Moon zenith distance is exactly 80
degrees, neither moon branch fires, so the returned luminance equals
the moon-free total; and whenever the moonlight term is nonzero the
result differs from the fully included total. -/
theorem C10_boundary_80 (sb : skybrightness_t) (md sd zd : ℝ) (h : sb.ZM = 80) :
    skybrightness_get_luminance sb md sd zd =
      (BN_term sb zd + min (BT_term sb sd zd) (BD_term sb sd zd)) / 1.11e-15 *
        NLAMBERT_TO_CDM2 ∧
    (BM_term sb md zd ≠ 0 →
      skybrightness_get_luminance sb md sd zd ≠
        (BN_term sb zd + min (BT_term sb sd zd) (BD_term sb sd zd) +
          BM_term sb md zd) / 1.11e-15 * NLAMBERT_TO_CDM2) := by
  have hgl : skybrightness_get_luminance sb md sd zd =
      (BN_term sb zd + min (BT_term sb sd zd) (BD_term sb sd zd)) / 1.11e-15 *
        NLAMBERT_TO_CDM2 := by
    unfold skybrightness_get_luminance
    rw [B_total_decomp, h, moonWeight_80, zero_mul, add_zero]
  refine ⟨hgl, fun hBM hEq => hBM ?_⟩
  rw [hgl] at hEq
  have h1 := mul_right_cancel₀
    (show NLAMBERT_TO_CDM2 ≠ 0 by norm_num [NLAMBERT_TO_CDM2]) hEq
  have h2 := (div_left_inj' (show (1.11e-15 : ℝ) ≠ 0 by norm_num)).mp h1
  linarith

/-- Witness for claim C10 at a concrete session record with Moon zenith
distance exactly 80 degrees and strictly positive moonlight term. -/
theorem C10_boundary_80_witness :
    skybrightness_get_luminance sbC10 0 0 0 =
      (BN_term sbC10 0 + min (BT_term sbC10 0 0) (BD_term sbC10 0 0)) / 1.11e-15 *
        NLAMBERT_TO_CDM2 ∧
    skybrightness_get_luminance sbC10 0 0 0 ≠
      (BN_term sbC10 0 + min (BT_term sbC10 0 0) (BD_term sbC10 0 0) +
        BM_term sbC10 0 0) / 1.11e-15 * NLAMBERT_TO_CDM2 := by
  have h := C10_boundary_80 sbC10 0 0 0 rfl
  have hBM : 0 < BM_term sbC10 0 0 := by
    apply BM_pos ?_ X_air_zero_pos (by norm_num [DR]) ?_
    · show (0 : ℝ) < 1
      norm_num
    · show (0 : ℝ) < 1
      norm_num
  exact ⟨h.1, h.2 (ne_of_gt hBM)⟩

end

end Skybright
